import Mathlib

/-!
Shallow embedding of src/debug.h from blakesmith/wishbone-utils.

The header defines six CSR (control/status register) address constants.
Each constant is modelled as a Nat; the header as a whole is modelled as
the ordered list of its (name, value) bindings. A serialiser renders the
bindings back to their textual form, a re-parse of the rendered text
recovers the bindings; both are executable so that concrete round-trips
can be checked by evaluation.
-/

def CSR_XADC_TEMPERATURE_ADDR : Nat := 0xe0005800

def CSR_CPU_OR_BRIDGE_BASE : Nat := 0xe0006000

def CSR_CPU_OR_BRIDGE_DEBUG_CORE : Nat := 0xe0006000

def CSR_CPU_OR_BRIDGE_DEBUG_DATA : Nat := 0xe0006004

def CSR_CPU_OR_BRIDGE_DEBUG_SYNC : Nat := 0xe0006008

def CSR_CPU_OR_BRIDGE_DEBUG_PACKET_COUNTER : Nat := 0xe000600c

/-- The ordered list of (name, value) bindings made by src/debug.h. -/
def debugHeader : List (String × Nat) :=
  [("CSR_XADC_TEMPERATURE_ADDR", CSR_XADC_TEMPERATURE_ADDR),
   ("CSR_CPU_OR_BRIDGE_BASE", CSR_CPU_OR_BRIDGE_BASE),
   ("CSR_CPU_OR_BRIDGE_DEBUG_CORE", CSR_CPU_OR_BRIDGE_DEBUG_CORE),
   ("CSR_CPU_OR_BRIDGE_DEBUG_DATA", CSR_CPU_OR_BRIDGE_DEBUG_DATA),
   ("CSR_CPU_OR_BRIDGE_DEBUG_SYNC", CSR_CPU_OR_BRIDGE_DEBUG_SYNC),
   ("CSR_CPU_OR_BRIDGE_DEBUG_PACKET_COUNTER", CSR_CPU_OR_BRIDGE_DEBUG_PACKET_COUNTER)]

/-- The four debug registers of the cpu_or_bridge block, in header order. -/
def cpuOrBridgeBlock : List Nat :=
  [CSR_CPU_OR_BRIDGE_DEBUG_CORE, CSR_CPU_OR_BRIDGE_DEBUG_DATA,
   CSR_CPU_OR_BRIDGE_DEBUG_SYNC, CSR_CPU_OR_BRIDGE_DEBUG_PACKET_COUNTER]

/-- Render a value as a lowercase hexadecimal literal, as it appears in the header. -/
def renderHexLit (v : Nat) : List Char :=
  '0' :: 'x' :: Nat.toDigits 16 v

/-- Render one binding as its textual define line. -/
def renderDefine (p : String × Nat) : List Char :=
  ("#define ").data ++ p.1.data ++ ' ' :: renderHexLit p.2

/-- Render the whole header: one define line per binding, newline separated. -/
def serialiseHeader : List (String × Nat) → List Char
  | [] => []
  | [p] => renderDefine p
  | p :: ps => renderDefine p ++ '\n' :: serialiseHeader ps

/-- Numeric value of one lowercase hexadecimal digit. -/
def hexVal (c : Char) : Option Nat :=
  if '0' ≤ c ∧ c ≤ '9' then some (c.toNat - 48)
  else if 'a' ≤ c ∧ c ≤ 'f' then some (c.toNat - 87)
  else none

/-- Accumulate the remaining hexadecimal digits of a literal. -/
def parseHexCore : List Char → Nat → Option Nat
  | [], acc => some acc
  | c :: cs, acc =>
    match hexVal c with
    | some d => parseHexCore cs (16 * acc + d)
    | none => none

/-- Parse a 0x-prefixed hexadecimal literal with at least one digit. -/
def parseHexLit : List Char → Option Nat
  | '0' :: 'x' :: c :: cs => (hexVal c).bind (fun d => parseHexCore cs d)
  | _ => none

/-- Split a character list on a separator character. -/
def splitOnChar (sep : Char) : List Char → List (List Char)
  | [] => [[]]
  | c :: cs =>
    match splitOnChar sep cs with
    | [] => if c = sep then [[], []] else [[c]]
    | w :: ws => if c = sep then [] :: w :: ws else (c :: w) :: ws

/-- Parse one define line back into a (name, value) binding. -/
def parseDefineLine (cs : List Char) : Option (String × Nat) :=
  match splitOnChar ' ' cs with
  | [kw, nm, v] =>
    if kw = ("#define").data ∧ nm ≠ [] then
      (parseHexLit v).map (fun x => (String.mk nm, x))
    else none
  | _ => none

/-- Parse every line of a header text; fails if any line fails. -/
def parseHeaderLines : List (List Char) → Option (List (String × Nat))
  | [] => some []
  | l :: ls =>
    (parseDefineLine l).bind (fun p => (parseHeaderLines ls).map (fun r => p :: r))

/-- Parse a newline-separated header text into its list of bindings. -/
def parseHeaderText (cs : List Char) : Option (List (String × Nat)) :=
  parseHeaderLines (splitOnChar '\n' cs)

/-- Claim C1: each of the six named constants in the header equals exactly
the hexadecimal value listed for it in the spec's interface table. -/
theorem csr_constants_values :
    CSR_XADC_TEMPERATURE_ADDR = 0xe0005800 ∧
    CSR_CPU_OR_BRIDGE_BASE = 0xe0006000 ∧
    CSR_CPU_OR_BRIDGE_DEBUG_CORE = 0xe0006000 ∧
    CSR_CPU_OR_BRIDGE_DEBUG_DATA = 0xe0006004 ∧
    CSR_CPU_OR_BRIDGE_DEBUG_SYNC = 0xe0006008 ∧
    CSR_CPU_OR_BRIDGE_DEBUG_PACKET_COUNTER = 0xe000600c := by
  decide

/-- Claim C2, counterexample: the six constants are not pairwise distinct.
CSR_CPU_OR_BRIDGE_BASE and CSR_CPU_OR_BRIDGE_DEBUG_CORE are different names
holding equal values, so the list of the six values has a duplicate. -/
theorem csr_constants_not_pairwise_distinct :
    ¬ (debugHeader.map Prod.snd).Nodup ∧
    CSR_CPU_OR_BRIDGE_BASE = CSR_CPU_OR_BRIDGE_DEBUG_CORE ∧
    ("CSR_CPU_OR_BRIDGE_BASE" : String) ≠ "CSR_CPU_OR_BRIDGE_DEBUG_CORE" := by
  decide

/-- Claim C2, amended: the six named constants take exactly five distinct
values. CSR_CPU_OR_BRIDGE_BASE equals CSR_CPU_OR_BRIDGE_DEBUG_CORE, and any
two of the six names other than that aliased pair hold different values. -/
theorem csr_constants_five_distinct :
    CSR_CPU_OR_BRIDGE_BASE = CSR_CPU_OR_BRIDGE_DEBUG_CORE ∧
    ([CSR_XADC_TEMPERATURE_ADDR, CSR_CPU_OR_BRIDGE_DEBUG_CORE,
      CSR_CPU_OR_BRIDGE_DEBUG_DATA, CSR_CPU_OR_BRIDGE_DEBUG_SYNC,
      CSR_CPU_OR_BRIDGE_DEBUG_PACKET_COUNTER] : List Nat).Nodup := by
  decide

/-- Claim C3: the four cpu_or_bridge debug register addresses are strictly
increasing by exactly 4 bytes each, hence unique within the block. -/
theorem debug_block_strictly_increasing_by_four :
    CSR_CPU_OR_BRIDGE_DEBUG_CORE < CSR_CPU_OR_BRIDGE_DEBUG_DATA ∧
    CSR_CPU_OR_BRIDGE_DEBUG_DATA < CSR_CPU_OR_BRIDGE_DEBUG_SYNC ∧
    CSR_CPU_OR_BRIDGE_DEBUG_SYNC < CSR_CPU_OR_BRIDGE_DEBUG_PACKET_COUNTER ∧
    CSR_CPU_OR_BRIDGE_DEBUG_DATA = CSR_CPU_OR_BRIDGE_DEBUG_CORE + 4 ∧
    CSR_CPU_OR_BRIDGE_DEBUG_SYNC = CSR_CPU_OR_BRIDGE_DEBUG_DATA + 4 ∧
    CSR_CPU_OR_BRIDGE_DEBUG_PACKET_COUNTER = CSR_CPU_OR_BRIDGE_DEBUG_SYNC + 4 ∧
    cpuOrBridgeBlock.Nodup := by
  decide

/-- Claim C4: CSR_CPU_OR_BRIDGE_DEBUG_CORE equals CSR_CPU_OR_BRIDGE_BASE and
the i-th register of the block sits at offset 4*i from the base. -/
theorem debug_block_contiguous_offsets :
    CSR_CPU_OR_BRIDGE_DEBUG_CORE = CSR_CPU_OR_BRIDGE_BASE ∧
    ∀ i : Fin cpuOrBridgeBlock.length,
      cpuOrBridgeBlock.get i = CSR_CPU_OR_BRIDGE_BASE + 4 * i.val := by
  decide

/-- Claim C5: the five register addresses other than the base alias are
pairwise distinct. -/
theorem csr_addresses_pairwise_distinct :
    ([CSR_XADC_TEMPERATURE_ADDR, CSR_CPU_OR_BRIDGE_DEBUG_CORE,
      CSR_CPU_OR_BRIDGE_DEBUG_DATA, CSR_CPU_OR_BRIDGE_DEBUG_SYNC,
      CSR_CPU_OR_BRIDGE_DEBUG_PACKET_COUNTER] : List Nat).Nodup := by
  decide

set_option maxRecDepth 100000 in
/-- Claim C6: serialising the header's (name, value) bindings to their
textual define-line form and re-parsing that text reproduces the identical
list of bindings, and each name is defined exactly once. -/
theorem header_serialise_reparse_roundtrip :
    parseHeaderText (serialiseHeader debugHeader) = some debugHeader ∧
    (debugHeader.map Prod.fst).Nodup := by
  decide

/-- Claim C7: every one of the six constant values is representable as a
32-bit unsigned integer: at least 0 and strictly below 2 to the 32. -/
theorem csr_constants_fit_uint32 :
    (0 ≤ CSR_XADC_TEMPERATURE_ADDR ∧ CSR_XADC_TEMPERATURE_ADDR < 2 ^ 32) ∧
    (0 ≤ CSR_CPU_OR_BRIDGE_BASE ∧ CSR_CPU_OR_BRIDGE_BASE < 2 ^ 32) ∧
    (0 ≤ CSR_CPU_OR_BRIDGE_DEBUG_CORE ∧ CSR_CPU_OR_BRIDGE_DEBUG_CORE < 2 ^ 32) ∧
    (0 ≤ CSR_CPU_OR_BRIDGE_DEBUG_DATA ∧ CSR_CPU_OR_BRIDGE_DEBUG_DATA < 2 ^ 32) ∧
    (0 ≤ CSR_CPU_OR_BRIDGE_DEBUG_SYNC ∧ CSR_CPU_OR_BRIDGE_DEBUG_SYNC < 2 ^ 32) ∧
    (0 ≤ CSR_CPU_OR_BRIDGE_DEBUG_PACKET_COUNTER ∧
      CSR_CPU_OR_BRIDGE_DEBUG_PACKET_COUNTER < 2 ^ 32) := by
  decide

/-- Claim C8: CSR_XADC_TEMPERATURE_ADDR lies entirely outside the
cpu_or_bridge block: below the base, not equal to any block register, and
outside the half-open range from 0xe0006000 to 0xe0006010. -/
theorem xadc_outside_bridge_block :
    CSR_XADC_TEMPERATURE_ADDR < CSR_CPU_OR_BRIDGE_BASE ∧
    CSR_XADC_TEMPERATURE_ADDR ∉ cpuOrBridgeBlock ∧
    ¬ (0xe0006000 ≤ CSR_XADC_TEMPERATURE_ADDR ∧
       CSR_XADC_TEMPERATURE_ADDR < 0xe0006010) := by
  decide

/-- Claim C9: every address constant in the header, the temperature register
included, is 32-bit aligned: divisible by 4. -/
theorem csr_constants_word_aligned :
    CSR_XADC_TEMPERATURE_ADDR % 4 = 0 ∧
    CSR_CPU_OR_BRIDGE_BASE % 4 = 0 ∧
    CSR_CPU_OR_BRIDGE_DEBUG_CORE % 4 = 0 ∧
    CSR_CPU_OR_BRIDGE_DEBUG_DATA % 4 = 0 ∧
    CSR_CPU_OR_BRIDGE_DEBUG_SYNC % 4 = 0 ∧
    CSR_CPU_OR_BRIDGE_DEBUG_PACKET_COUNTER % 4 = 0 := by
  decide

/-- Claim C10: the header's name-to-value bindings are deterministic: any two
bindings of the same name in the header carry the same value, so every
evaluation of a named constant yields the same result; the header contains no
operation that could rebind a name. -/
theorem header_lookup_deterministic (n : String) (v₁ v₂ : Nat)
    (h₁ : (n, v₁) ∈ debugHeader) (h₂ : (n, v₂) ∈ debugHeader) : v₁ = v₂ := by
  simp only [debugHeader, List.mem_cons, List.not_mem_nil, or_false,
    Prod.mk.injEq] at h₁ h₂
  rcases h₁ with ⟨rfl, rfl⟩ | ⟨rfl, rfl⟩ | ⟨rfl, rfl⟩ | ⟨rfl, rfl⟩ |
    ⟨rfl, rfl⟩ | ⟨rfl, rfl⟩ <;>
  rcases h₂ with ⟨h, rfl⟩ | ⟨h, rfl⟩ | ⟨h, rfl⟩ | ⟨h, rfl⟩ |
    ⟨h, rfl⟩ | ⟨h, rfl⟩ <;>
  first
    | rfl
    | exact absurd h (by decide)

/-- Witness for C10 at the base binding of the header. -/
theorem header_lookup_deterministic_witness :
    (("CSR_CPU_OR_BRIDGE_BASE"), (0xe0006000 : Nat)) ∈ debugHeader ∧
    (0xe0006000 : Nat) = 0xe0006000 :=
  ⟨by decide,
   header_lookup_deterministic ("CSR_CPU_OR_BRIDGE_BASE") 0xe0006000 0xe0006000
     (by decide) (by decide)⟩
